import Mathlib

/-!
Shallow embedding of src/function.h: the type-erased callable container
function<R(Args...)> with a small-buffer optimization.

The container stores a bool discriminant small_object together with an
anonymous union holding either a fixed 128-byte buffer (in which an adapter
object is placement-constructed, inline mode) or a unique_ptr to a
heap-allocated adapter (heap mode; a null pointer means the empty state).

The call signature is modelled concretely as R(Class, Arg) with Class a
small record Foo and Arg and R both Nat.  Plain callables receive both
arguments.  The member constructor instantiates wrapper_member<F, Class>
with an empty FunArgs pack, so that adapter's call takes the receiver only
and invokes the member with no further arguments; for a signature with
arguments after the receiver it does not override wrapper::call and the
construction is ill-formed in the source (see the arity definitions and
claim C7), so the member adapter is modelled with a zero-parameter member
pointer and a call that forwards nothing past the receiver.

Destroyed storage is modelled explicitly: destruction marks the union as
destroyed, and any later read of a destroyed union member (or a virtual
call through a null pointer) yields an undefined-behavior error value, so
the use-after-destroy paths of the original code become observable.
-/

namespace CppFn

/-- Model of the receiver class (the Class parameter of wrapper_member):
an object with some observable data. -/
structure Foo where
  data : Nat
deriving DecidableEq

/-- Model of a concrete callable type F together with one value of it: its
sizeof, whether std::is_nothrow_move_constructible<F> holds, the mutable
state it captures, and its call behavior mapping (state, Foo argument,
Nat argument) to (new captured state, result). -/
structure Callable where
  size : Nat
  nothrowMove : Bool
  state : Nat
  run : Nat → Foo → Nat → Nat × Nat

/-- The two concrete adapters implementing the erased wrapper interface:
wrapper_function<T> holds a callable by value; wrapper_member<F, Class> as
instantiated by the member constructor has an empty FunArgs pack, so it
holds a pointer to a zero-parameter member function of Foo (the only
instantiation whose call can override the erased interface). -/
inductive Wrapper where
  | wfun (c : Callable)
  | wmember (m : Foo → Nat)

/-- wrapper::call.  wrapper_function<T>::call forwards all arguments to the
stored callable, which may update its captured state.  wrapper_member's
call, with its empty FunArgs pack, is R call(Class&&) with body
(object.*callable)(): it takes the first argument as the receiver and
forwards nothing after it, so the remaining call argument never reaches
the member. -/
def Wrapper.call : Wrapper → Foo → Nat → Wrapper × Nat
  | .wfun c, obj, a =>
      let p := c.run c.state obj a
      (.wfun { c with state := p.1 }, p.2)
  | .wmember m, obj, _ => (.wmember m, m obj)

/-- wrapper::move_by_pointer: placement-new at the target an adapter
move-constructed from this one; the new adapter holds the same value. -/
def Wrapper.move_by_pointer : Wrapper → Wrapper
  | .wfun c => .wfun c
  | .wmember m => .wmember m

/-- wrapper::clone_small: placement-new at the target an adapter
copy-constructed from this one. -/
def Wrapper.clone_small : Wrapper → Wrapper
  | .wfun c => .wfun c
  | .wmember m => .wmember m

/-- wrapper::clone: make_unique a heap copy of this adapter. -/
def Wrapper.clone : Wrapper → Wrapper
  | .wfun c => .wfun c
  | .wmember m => .wmember m

/-- Contents of the anonymous union: buf w when the buffer holds a live
adapter (inline mode), ptr p when it holds the unique_ptr big_pointer
(none models nullptr), or destroyed after the active member's destructor
has run, when reading it is undefined behavior. -/
inductive Store where
  | buf (w : Wrapper)
  | ptr (p : Option Wrapper)
  | destroyed

/-- The container state: the bool small_object discriminant plus the union. -/
structure Fn where
  small_object : Bool
  store : Store

/-- Errors: bad_function_call is thrown by operator() on an empty container;
ub marks undefined behavior (virtual call through a null big_pointer, or any
read of a destroyed union member). -/
inductive Err where
  | bad_function_call
  | ub
deriving DecidableEq

/-- static constexpr int MAX_SIZE = 128, the inline buffer capacity. -/
def MAX_SIZE : Nat := 128

/-- function(std::nullptr_t): small_object(false), big_pointer(nullptr). -/
def Fn.fromNull : Fn := ⟨false, .ptr none⟩

/-- function(): delegates to function(nullptr). -/
def Fn.defaultCtor : Fn := Fn.fromNull

/-- function(F f): heap mode iff F is nothrow move constructible and
sizeof(f) > MAX_SIZE (then a unique_ptr to a heap adapter is built in the
buffer); otherwise the wrapper_function adapter is built in the buffer. -/
def Fn.ofCallable (f : Callable) : Fn :=
  if f.nothrowMove = true ∧ MAX_SIZE < f.size then
    ⟨false, .ptr (some (.wfun f))⟩
  else
    ⟨true, .buf (.wfun f)⟩

/-- function(F Class::* member): always inline mode, with a wrapper_member
adapter built in the buffer (unconditionally, with no size or mode test). -/
def Fn.ofMember (m : Foo → Nat) : Fn :=
  ⟨true, .buf (.wmember m)⟩

/-- Arity of the modelled call signature R(Args...): the receiver plus one
further argument. -/
def signatureArity : Nat := 2

/-- function(F Class::*) places wrapper_member<F, Class>, leaving the
trailing FunArgs pack empty, so the adapter's call takes the receiver
alone: arity 1. -/
def wrapperMemberCallArity : Nat := 1

/-- wrapper_member's call overrides the pure virtual wrapper::call(Args...)
only when its arity equals the signature's; otherwise wrapper_member stays
abstract and the placement-new in the member constructor is ill-formed, so
the program rejects member construction for that signature at compile
time. -/
def memberCtorCompiles : Bool := wrapperMemberCallArity == signatureArity

/-- function(const function& other): if other is inline, clone_small its
buffer adapter into our buffer; otherwise build a unique_ptr from
other.big_pointer->clone(), which dereferences big_pointer even when it is
null (undefined behavior on an empty source).  Finally copy the flag. -/
def Fn.copyCtor (other : Fn) : Except Err Fn :=
  if other.small_object then
    match other.store with
    | .buf w => .ok ⟨other.small_object, .buf w.clone_small⟩
    | _ => .error .ub
  else
    match other.store with
    | .ptr (some w) => .ok ⟨other.small_object, .ptr (some w.clone)⟩
    | .ptr none => .error .ub
    | _ => .error .ub

/-- function(function&& other): if other is inline, move_by_pointer its
adapter into our buffer and placement-new a null unique_ptr over other's
buffer; otherwise move other's big_pointer into our buffer (leaving other's
pointer null).  Copy the flag, then clear other's flag.  Returns the new
container together with other's resulting state. -/
def Fn.moveCtor (other : Fn) : Except Err (Fn × Fn) :=
  if other.small_object then
    match other.store with
    | .buf w =>
        .ok (⟨other.small_object, .buf w.move_by_pointer⟩, ⟨false, .ptr none⟩)
    | _ => .error .ub
  else
    match other.store with
    | .ptr p => .ok (⟨other.small_object, .ptr p⟩, ⟨false, .ptr none⟩)
    | _ => .error .ub

/-- function::destruction: if small_object, run the buffer adapter's
destructor in place; otherwise run big_pointer's unique_ptr destructor
(which deletes the owned adapter when non-null).  Either way the active
union member is left destroyed; the flag is not changed. -/
def Fn.destruction (f : Fn) : Except Err Fn :=
  if f.small_object then
    match f.store with
    | .buf _ => .ok ⟨f.small_object, .destroyed⟩
    | _ => .error .ub
  else
    match f.store with
    | .ptr _ => .ok ⟨f.small_object, .destroyed⟩
    | _ => .error .ub

/-- operator=(function&& other): destruction() of the current state, then
the same transfer as the move constructor.  Returns the new state of the
assigned-to container together with other's resulting state. -/
def Fn.moveAssign (self other : Fn) : Except Err (Fn × Fn) :=
  match self.destruction with
  | .error e => .error e
  | .ok _ =>
    if other.small_object then
      match other.store with
      | .buf w =>
          .ok (⟨other.small_object, .buf w.move_by_pointer⟩, ⟨false, .ptr none⟩)
      | _ => .error .ub
    else
      match other.store with
      | .ptr p => .ok (⟨other.small_object, .ptr p⟩, ⟨false, .ptr none⟩)
      | _ => .error .ub

/-- function::swap(function& other): function tmp(std::move(other)); then
other = std::move(*this); then *this = std::move(tmp); tmp is destroyed at
scope exit.  Models the two objects as distinct.  Returns the new states
(self, other). -/
def Fn.swap (self other : Fn) : Except Err (Fn × Fn) :=
  match Fn.moveCtor other with
  | .error e => .error e
  | .ok (tmp, other1) =>
    match Fn.moveAssign other1 self with
    | .error e => .error e
    | .ok (other2, self1) =>
      match Fn.moveAssign self1 tmp with
      | .error e => .error e
      | .ok (self2, tmp1) =>
        match tmp1.destruction with
        | .error e => .error e
        | .ok _ => .ok (self2, other2)

/-- operator=(const function& other) for distinct objects: destruction()
first, then function tmp(other), then swap(tmp), tmp destroyed at scope
exit.  Note the swap move-assigns from *this whose union was already
destroyed. -/
def Fn.copyAssign (self other : Fn) : Except Err Fn :=
  match self.destruction with
  | .error e => .error e
  | .ok self1 =>
    match Fn.copyCtor other with
    | .error e => .error e
    | .ok tmp =>
      match Fn.swap self1 tmp with
      | .error e => .error e
      | .ok (self2, tmp1) =>
        match tmp1.destruction with
        | .error e => .error e
        | .ok _ => .ok self2

/-- operator=(const function& other) when other aliases *this (c = c):
destruction() destroys the one shared object, then function tmp(other)
copy-constructs from that already-destroyed object, then swap(tmp). -/
def Fn.copyAssignSelf (c : Fn) : Except Err Fn :=
  match c.destruction with
  | .error e => .error e
  | .ok c1 =>
    match Fn.copyCtor c1 with
    | .error e => .error e
    | .ok tmp =>
      match Fn.swap c1 tmp with
      | .error e => .error e
      | .ok (c2, tmp1) =>
        match tmp1.destruction with
        | .error e => .error e
        | .ok _ => .ok c2

/-- operator bool: small_object || static_cast<bool>(big_pointer); the
short-circuit reads big_pointer only when small_object is false. -/
def Fn.toBool (f : Fn) : Except Err Bool :=
  if f.small_object then .ok true
  else
    match f.store with
    | .ptr p => .ok p.isSome
    | _ => .error .ub

/-- operator()(Args... args): throw bad_function_call when the bool test is
false; otherwise dispatch call through the buffer adapter (inline) or
through big_pointer (heap).  Returns the updated container (the stored
callable may mutate its captured state) and the result. -/
def Fn.callOp (f : Fn) (obj : Foo) (a : Nat) : Except Err (Fn × Nat) :=
  match f.toBool with
  | .error e => .error e
  | .ok false => .error .bad_function_call
  | .ok true =>
    if f.small_object then
      match f.store with
      | .buf w =>
          let p := w.call obj a
          .ok (⟨f.small_object, .buf p.1⟩, p.2)
      | _ => .error .ub
    else
      match f.store with
      | .ptr (some w) =>
          let p := w.call obj a
          .ok (⟨f.small_object, .ptr (some p.1)⟩, p.2)
      | _ => .error .ub

/-- A container state is well formed when the discriminant matches the live
union member: the buffer holds an adapter when small_object is true, and
the union holds the unique_ptr (possibly null) when small_object is false.
Every state produced by the constructors is well formed. -/
def Fn.wf (f : Fn) : Bool :=
  match f.small_object, f.store with
  | true, .buf _ => true
  | false, .ptr _ => true
  | _, _ => false

/-- Whether running the destructor on this state frees a heap allocation:
only a heap-mode state with a non-null big_pointer does. -/
def Fn.releasesHeap (f : Fn) : Bool :=
  match f.small_object, f.store with
  | false, .ptr (some _) => true
  | _, _ => false

/-! Helper lemmas shared by the claim theorems. -/

theorem Wrapper.move_by_pointer_eq (w : Wrapper) : w.move_by_pointer = w := by
  cases w <;> rfl

theorem Wrapper.clone_small_eq (w : Wrapper) : w.clone_small = w := by
  cases w <;> rfl

theorem Wrapper.clone_eq (w : Wrapper) : w.clone = w := by
  cases w <;> rfl

theorem Fn.wf_fromNull : Fn.fromNull.wf = true := rfl

theorem Fn.destruction_wf (f : Fn) (h : f.wf = true) :
    f.destruction = .ok ⟨f.small_object, .destroyed⟩ := by
  obtain ⟨b, s⟩ := f
  cases b <;> cases s <;> simp_all [Fn.wf, Fn.destruction]

theorem Fn.moveCtor_wf (f : Fn) (h : f.wf = true) :
    Fn.moveCtor f = .ok (f, Fn.fromNull) := by
  obtain ⟨b, s⟩ := f
  cases b <;> cases s <;>
    simp_all [Fn.wf, Fn.moveCtor, Wrapper.move_by_pointer_eq, Fn.fromNull]

theorem Fn.moveAssign_wf (d f : Fn) (hd : d.wf = true) (hf : f.wf = true) :
    Fn.moveAssign d f = .ok (f, Fn.fromNull) := by
  obtain ⟨b, s⟩ := d
  obtain ⟨b2, s2⟩ := f
  cases b <;> cases s <;> cases b2 <;> cases s2 <;>
    simp_all [Fn.wf, Fn.moveAssign, Fn.destruction, Wrapper.move_by_pointer_eq,
      Fn.fromNull]

theorem Fn.swap_wf (a b : Fn) (ha : a.wf = true) (hb : b.wf = true) :
    Fn.swap a b = .ok (b, a) := by
  simp only [Fn.swap, Fn.moveCtor_wf b hb,
    Fn.moveAssign_wf Fn.fromNull a Fn.wf_fromNull ha,
    Fn.moveAssign_wf Fn.fromNull b Fn.wf_fromNull hb,
    Fn.destruction_wf Fn.fromNull Fn.wf_fromNull]

theorem Fn.copyCtor_wf_live (f : Fn) (hf : f.wf = true) (hl : f.toBool = .ok true) :
    Fn.copyCtor f = .ok f := by
  obtain ⟨b, s⟩ := f
  cases b <;> cases s <;>
    simp_all [Fn.wf, Fn.toBool, Fn.copyCtor, Wrapper.clone_small_eq, Wrapper.clone_eq]
  case false.ptr p =>
    cases p <;> simp_all [Wrapper.clone_eq]

theorem Fn.callOp_buf (w : Wrapper) (obj : Foo) (a : Nat) :
    Fn.callOp ⟨true, .buf w⟩ obj a =
      .ok (⟨true, .buf (w.call obj a).1⟩, (w.call obj a).2) := rfl

theorem Fn.callOp_heap (w : Wrapper) (obj : Foo) (a : Nat) :
    Fn.callOp ⟨false, .ptr (some w)⟩ obj a =
      .ok (⟨false, .ptr (some (w.call obj a).1)⟩, (w.call obj a).2) := rfl

theorem Fn.callOp_empty (obj : Foo) (a : Nat) :
    Fn.callOp Fn.fromNull obj a = .error .bad_function_call := rfl

/-! Concrete container inputs, used by the witnesses. -/

/-- A small stateful callable: 8 bytes, nothrow movable, returns its counter
plus the argument and increments the counter. -/
def smallCounter : Callable :=
  ⟨8, true, 0, fun s _ a => (s + 1, s + a)⟩

/-- A large callable: 200 bytes, nothrow movable, doubles its argument. -/
def bigDoubler : Callable :=
  ⟨200, true, 0, fun s _ a => (s, a * 2)⟩

/-- A callable whose size is exactly the inline capacity. -/
def exact128 : Callable :=
  ⟨128, true, 0, fun s _ a => (s, a)⟩

/-- A zero-parameter member function of Foo: returns the receiver's data
plus one. -/
def addMember : Foo → Nat := fun o => o.data + 1

/-! The claims. -/

/-- C1: heap mode is selected iff the callable is nothrow move constructible
and its size strictly exceeds the inline capacity; in every other case
inline mode is selected with the adapter constructed in the fixed buffer,
and a pointer-to-member-function always yields inline mode with its adapter
in the buffer. -/
theorem C1_mode_selection (f : Callable) (m : Foo → Nat) :
    ((Fn.ofCallable f).small_object = false ↔
      (f.nothrowMove = true ∧ MAX_SIZE < f.size)) ∧
    ((Fn.ofCallable f).small_object = true ↔
      (Fn.ofCallable f).store = .buf (.wfun f)) ∧
    (Fn.ofMember m).small_object = true ∧
    (Fn.ofMember m).store = .buf (.wmember m) := by
  unfold Fn.ofCallable Fn.ofMember
  by_cases h : f.nothrowMove = true ∧ MAX_SIZE < f.size <;> simp [h]

/-- C2: refuted on the code: operator= runs destruction() first and only
then copy-constructs the temporary from other, so when other aliases this
(c = c) the temporary is built from the already-destroyed object — a
virtual clone on a destroyed adapter or through a deleted pointer.  Every
container state makes self-assignment undefined behavior, never a no-op. -/
theorem C2_self_assignment_ub (c : Fn) :
    Fn.copyAssignSelf c = .error .ub := by
  obtain ⟨b, s⟩ := c
  cases b <;> cases s <;> rfl

/-- C3: refuted on the code: copy-constructing from an empty container
evaluates other.big_pointer->clone() through the null big_pointer, which is
undefined behavior, instead of producing an empty copy. -/
theorem C3_copy_from_empty_ub :
    Fn.copyCtor Fn.defaultCtor = .error .ub := rfl

/-- C4: move-construction from a live container yields a container with the
same mode flag whose every invocation gives the same result the original
would have, and leaves the source testing false; likewise move-assignment
into any well-formed destination. -/
theorem C4_move_preserves_behavior (f d : Fn) (hf : f.wf = true)
    (_hl : f.toBool = .ok true) (hd : d.wf = true) :
    (∃ g f2, Fn.moveCtor f = .ok (g, f2) ∧ g.small_object = f.small_object ∧
      (∀ obj a, g.callOp obj a = f.callOp obj a) ∧ f2.toBool = .ok false) ∧
    (∃ g f2, Fn.moveAssign d f = .ok (g, f2) ∧ g.small_object = f.small_object ∧
      (∀ obj a, g.callOp obj a = f.callOp obj a) ∧ f2.toBool = .ok false) :=
  ⟨⟨f, Fn.fromNull, Fn.moveCtor_wf f hf, rfl, fun _ _ => rfl, rfl⟩,
   ⟨f, Fn.fromNull, Fn.moveAssign_wf d f hd hf, rfl, fun _ _ => rfl, rfl⟩⟩

theorem C4_move_preserves_behavior_witness :
    (Fn.ofCallable smallCounter).wf = true ∧
    (Fn.ofCallable smallCounter).toBool = .ok true ∧
    Fn.fromNull.wf = true ∧
    ((∃ g f2, Fn.moveCtor (Fn.ofCallable smallCounter) = .ok (g, f2) ∧
        g.small_object = (Fn.ofCallable smallCounter).small_object ∧
        (∀ obj a, g.callOp obj a = (Fn.ofCallable smallCounter).callOp obj a) ∧
        f2.toBool = .ok false) ∧
     (∃ g f2, Fn.moveAssign Fn.fromNull (Fn.ofCallable smallCounter) = .ok (g, f2) ∧
        g.small_object = (Fn.ofCallable smallCounter).small_object ∧
        (∀ obj a, g.callOp obj a = (Fn.ofCallable smallCounter).callOp obj a) ∧
        f2.toBool = .ok false)) :=
  ⟨rfl, rfl, rfl,
   C4_move_preserves_behavior (Fn.ofCallable smallCounter) Fn.fromNull rfl rfl rfl⟩

/-- C5: the invocation operator raises bad_function_call iff the container
tests false; on a live container it never raises that error and dispatches
to the stored adapter; the default-constructed container tests false and
raises bad_function_call when invoked. -/
theorem C5_empty_invocation (f : Fn) (obj : Foo) (a : Nat) (hf : f.wf = true) :
    ((f.callOp obj a = .error .bad_function_call) ↔ f.toBool = .ok false) ∧
    ((∃ g r, f.callOp obj a = .ok (g, r)) ↔ f.toBool = .ok true) ∧
    Fn.defaultCtor.toBool = .ok false ∧
    Fn.defaultCtor.callOp obj a = .error .bad_function_call := by
  obtain ⟨b, s⟩ := f
  cases b <;> cases s
  case false.buf w => exact Bool.noConfusion hf
  case false.destroyed => exact Bool.noConfusion hf
  case true.ptr p => exact Bool.noConfusion hf
  case true.destroyed => exact Bool.noConfusion hf
  case true.buf w =>
    refine ⟨?_, ?_, rfl, rfl⟩ <;> simp [Fn.callOp_buf, Fn.toBool]
  case false.ptr p =>
    cases p with
    | none => refine ⟨?_, ?_, rfl, rfl⟩ <;> simp [Fn.callOp, Fn.toBool, Fn.fromNull]
    | some w => refine ⟨?_, ?_, rfl, rfl⟩ <;> simp [Fn.callOp_heap, Fn.toBool]

theorem C5_empty_invocation_witness :
    (Fn.ofCallable smallCounter).wf = true ∧
    ((((Fn.ofCallable smallCounter).callOp ⟨7⟩ 3 = .error .bad_function_call) ↔
        (Fn.ofCallable smallCounter).toBool = .ok false) ∧
     ((∃ g r, (Fn.ofCallable smallCounter).callOp ⟨7⟩ 3 = .ok (g, r)) ↔
        (Fn.ofCallable smallCounter).toBool = .ok true) ∧
     Fn.defaultCtor.toBool = .ok false ∧
     Fn.defaultCtor.callOp ⟨7⟩ 3 = .error .bad_function_call) :=
  ⟨rfl, C5_empty_invocation (Fn.ofCallable smallCounter) ⟨7⟩ 3 rfl⟩

/-- C6: copying a live container yields one with the same mode flag whose
every invocation result matches the original's, and the copies are
independent: a state-mutating call through the original leaves the copy
behaving exactly as the original did at the time of the copy. -/
theorem C6_copy_independent (f : Fn) (hf : f.wf = true)
    (hl : f.toBool = .ok true) :
    ∃ g, Fn.copyCtor f = .ok g ∧ g.small_object = f.small_object ∧
      (∀ obj a, g.callOp obj a = f.callOp obj a) ∧
      (∀ obj a f1 r, f.callOp obj a = .ok (f1, r) →
        ∀ obj2 b, g.callOp obj2 b = f.callOp obj2 b) :=
  ⟨f, Fn.copyCtor_wf_live f hf hl, rfl, fun _ _ => rfl,
   fun _ _ _ _ _ _ _ => rfl⟩

theorem C6_copy_independent_witness :
    (Fn.ofCallable smallCounter).wf = true ∧
    (Fn.ofCallable smallCounter).toBool = .ok true ∧
    (∃ g, Fn.copyCtor (Fn.ofCallable smallCounter) = .ok g ∧
      g.small_object = (Fn.ofCallable smallCounter).small_object ∧
      (∀ obj a, g.callOp obj a = (Fn.ofCallable smallCounter).callOp obj a) ∧
      (∀ obj a f1 r, (Fn.ofCallable smallCounter).callOp obj a = .ok (f1, r) →
        ∀ obj2 b, g.callOp obj2 b = (Fn.ofCallable smallCounter).callOp obj2 b)) :=
  ⟨rfl, rfl, C6_copy_independent (Fn.ofCallable smallCounter) rfl rfl⟩

/-- C7: refuted on the code: the member constructor instantiates
wrapper_member<F, Class> with an empty FunArgs pack, so for the modelled
two-argument signature its call does not override wrapper::call and the
construction is ill-formed (memberCtorCompiles is false); in the only
instantiation that does compile — a zero-parameter member in a
receiver-only signature — the member is invoked as (object.*callable)()
with nothing forwarded past the receiver, so the container's result is the
no-argument direct invocation and is independent of the call argument
after the receiver, contrary to the claimed forwarding of the member's own
parameters. -/
theorem C7_member_not_forwarded (m : Foo → Nat) (obj : Foo) (a b : Nat) :
    memberCtorCompiles = false ∧
    (Fn.ofMember m).callOp obj a = .ok (Fn.ofMember m, m obj) ∧
    (Fn.ofMember m).callOp obj a = (Fn.ofMember m).callOp obj b :=
  ⟨rfl, rfl, rfl⟩

/-- C8: for well-formed containers a and b (any combination of live-inline,
live-heap and empty) a single swap gives each side exactly the other's
prior state, mode and liveness included, and swapping twice restores the
original states. -/
theorem C8_swap_involution (a b : Fn) (ha : a.wf = true) (hb : b.wf = true) :
    Fn.swap a b = .ok (b, a) ∧ Fn.swap b a = .ok (a, b) :=
  ⟨Fn.swap_wf a b ha hb, Fn.swap_wf b a hb ha⟩

theorem C8_swap_involution_witness :
    (Fn.ofCallable smallCounter).wf = true ∧
    (Fn.ofCallable bigDoubler).wf = true ∧
    (Fn.swap (Fn.ofCallable smallCounter) (Fn.ofCallable bigDoubler) =
        .ok (Fn.ofCallable bigDoubler, Fn.ofCallable smallCounter) ∧
     Fn.swap (Fn.ofCallable bigDoubler) (Fn.ofCallable smallCounter) =
        .ok (Fn.ofCallable smallCounter, Fn.ofCallable bigDoubler)) :=
  ⟨rfl, rfl,
   C8_swap_involution (Fn.ofCallable smallCounter) (Fn.ofCallable bigDoubler) rfl rfl⟩

/-- C9: with nothrow move construction, a callable of size exactly MAX_SIZE
(128 bytes) is stored inline; heap mode is chosen exactly when the size is
strictly greater than MAX_SIZE. -/
theorem C9_boundary_inline (f : Callable) (h : f.nothrowMove = true) :
    (f.size = MAX_SIZE → (Fn.ofCallable f).small_object = true) ∧
    ((Fn.ofCallable f).small_object = false ↔ MAX_SIZE < f.size) := by
  constructor
  · intro hs
    simp [Fn.ofCallable, hs]
  · by_cases hlt : MAX_SIZE < f.size <;> simp [Fn.ofCallable, h, hlt]

theorem C9_boundary_inline_witness :
    exact128.nothrowMove = true ∧
    ((exact128.size = MAX_SIZE → (Fn.ofCallable exact128).small_object = true) ∧
     ((Fn.ofCallable exact128).small_object = false ↔ MAX_SIZE < exact128.size)) :=
  ⟨rfl, C9_boundary_inline exact128 rfl⟩

/-- C10: every move-construction and move-assignment leaves its source as
the canonical empty state — flag false and null big_pointer — which tests
false, raises bad_function_call when called, is destroyed without releasing
any heap allocation, and can be move-assigned to again. -/
theorem C10_moved_from_empty (f d : Fn) (hf : f.wf = true) (hd : d.wf = true) :
    (∃ g, Fn.moveCtor f = .ok (g, Fn.fromNull)) ∧
    (∃ g, Fn.moveAssign d f = .ok (g, Fn.fromNull)) ∧
    Fn.fromNull.small_object = false ∧
    Fn.fromNull.store = .ptr none ∧
    Fn.fromNull.toBool = .ok false ∧
    (∀ obj a, Fn.fromNull.callOp obj a = .error .bad_function_call) ∧
    Fn.fromNull.destruction = .ok ⟨false, .destroyed⟩ ∧
    Fn.fromNull.releasesHeap = false ∧
    (∃ g, Fn.moveAssign Fn.fromNull f = .ok (g, Fn.fromNull)) :=
  ⟨⟨f, Fn.moveCtor_wf f hf⟩, ⟨f, Fn.moveAssign_wf d f hd hf⟩, rfl, rfl, rfl,
   fun _ _ => rfl, rfl, rfl, ⟨f, Fn.moveAssign_wf Fn.fromNull f Fn.wf_fromNull hf⟩⟩

theorem C10_moved_from_empty_witness :
    (Fn.ofMember addMember).wf = true ∧
    (Fn.ofCallable bigDoubler).wf = true ∧
    ((∃ g, Fn.moveCtor (Fn.ofMember addMember) = .ok (g, Fn.fromNull)) ∧
     (∃ g, Fn.moveAssign (Fn.ofCallable bigDoubler) (Fn.ofMember addMember) =
        .ok (g, Fn.fromNull)) ∧
     Fn.fromNull.small_object = false ∧
     Fn.fromNull.store = .ptr none ∧
     Fn.fromNull.toBool = .ok false ∧
     (∀ obj a, Fn.fromNull.callOp obj a = .error .bad_function_call) ∧
     Fn.fromNull.destruction = .ok ⟨false, .destroyed⟩ ∧
     Fn.fromNull.releasesHeap = false ∧
     (∃ g, Fn.moveAssign Fn.fromNull (Fn.ofMember addMember) =
        .ok (g, Fn.fromNull))) :=
  ⟨rfl, rfl,
   C10_moved_from_empty (Fn.ofMember addMember) (Fn.ofCallable bigDoubler) rfl rfl⟩

end CppFn
